import Mathlib

/-!
Verification development for the search_api repository.

The repository has two Flask applications:

  - `app.py` — a meta-search API (`SearchAPI.perform_search` delegating to the
    DDGS backend, route `/api/search`);
  - `deepseek_python_20251004_98e665.py` — a multi-engine scraping API
    (`GoogleSearchEngine`, `BingSearchEngine`, `BaiduSearchEngine`, route
    `/search`).

The embedding below translates the pure data flow of those files.  External
effects are passed in explicitly: each third-party library call becomes a
function from the requested limit to `Except String (list of raw items)`
(`Except.error` standing for a raised exception or a failed import), and the
web that Bing's pagination walker crawls becomes the sequence of pages its
successive fetches return (`none` standing for a fetch or parse that raises).

Python string operations are modelled character-wise over `String.data`,
matching Python's view of a string as a sequence of characters.
-/

/-- Model of Python's `str.lower`, applied character-wise. -/
def pyLower (s : String) : String := ⟨s.data.map Char.toLower⟩

/-- Model of Python's `str.strip`: drop whitespace from both ends. -/
def pyStrip (s : String) : String :=
  ⟨((s.data.dropWhile Char.isWhitespace).reverse.dropWhile Char.isWhitespace).reverse⟩

/-- Model of Python's `s[:n]` for a string and a nonnegative `n`. -/
def pyTake (s : String) (n : Nat) : String := ⟨s.data.take n⟩

/-- Model of Python's `len` on a string (number of characters). -/
def pyLen (s : String) : Nat := s.data.length

/-- Model of Python's `l[:n]` on a list, for an arbitrary integer `n`:
a nonnegative `n` keeps the first `n` elements, a negative `n` drops the
last `-n` elements. -/
def pySlice {α : Type} (l : List α) (n : Int) : List α :=
  if 0 ≤ n then l.take n.toNat else l.take ((l.length : Int) + n).toNat

/-- A Python dict with string keys and string values, as an association list;
`dictGet` models `d.get(k, default)`. -/
abbrev StrDict := List (String × String)

/-- Model of Python's `d.get(k, default)` on a string dict. -/
def dictGet (d : StrDict) (k default : String) : String :=
  match d.find? (fun p => p.1 == k) with
  | some p => p.2
  | none => default

/-- The `SearchItem` dataclass of the scraping file:
`title: str`, `url: str`, `description: Optional[str] = None`. -/
structure SearchItem where
  title : String
  url : String
  description : Option String
deriving DecidableEq

/-- The `search_item_to_dict` function: serializes a `SearchItem` to the dict
`{'title': item.title, 'link': item.url, 'snippet': item.description or ""}`.
Note that no `rank` key is produced. -/
def searchItemToDict (item : SearchItem) : StrDict :=
  [("title", item.title), ("link", item.url), ("snippet", item.description.getD "")]

/-! ### GoogleSearchEngine -/

/-- A raw item yielded by the `googlesearch` library: either a plain URL
string, or an object whose `title` / `url` / `description` attributes are
read directly.  A `none` attribute models the attribute being missing, so
that reading it raises `AttributeError`. -/
inductive GoogleItem where
  | str (s : String)
  | obj (title url description : Option String)
deriving DecidableEq

/-- The `for i, item in enumerate(raw_results)` loop of
`GoogleSearchEngine.perform_search`.  A plain string becomes a synthesized
record; an object is read attribute by attribute.  Reading a missing
attribute raises, which escapes the loop; `none` models that escape (the
outer handler then discards everything already built). -/
def googleNormLoop : List GoogleItem → Nat → Option (List SearchItem)
  | [], _ => some []
  | GoogleItem.str s :: rest, i =>
      (googleNormLoop rest (i + 1)).map
        (fun tl => ⟨"Google Result " ++ toString (i + 1), s, some ""⟩ :: tl)
  | GoogleItem.obj (some t) (some u) (some d) :: rest, i =>
      (googleNormLoop rest (i + 1)).map (fun tl => ⟨t, u, some d⟩ :: tl)
  | GoogleItem.obj _ _ _ :: _, _ => none

/-- `GoogleSearchEngine.perform_search`: call the `googlesearch` library with
`num_results`, normalize the items; on any exception (import failure, a
failure raised by the library, or a malformed item during normalization)
return the empty list. -/
def googlePerformSearch (query : String) (num_results : Int)
    (glib : Int → Except String (List GoogleItem)) : List SearchItem :=
  match glib num_results with
  | Except.error _ => []
  | Except.ok items =>
    match googleNormLoop items 0 with
    | none => []
    | some res => res

/-- True exactly when normalizing the item reads a missing attribute. -/
def googleMalformed : GoogleItem → Bool
  | GoogleItem.str _ => false
  | GoogleItem.obj t u d => t.isNone || u.isNone || d.isNone

/-! ### BaiduSearchEngine -/

/-- A raw item yielded by the `baidusearch` library: a plain URL string, a
dict, an object read via `getattr` with defaults, or some other value for
which attribute access raises (the inner handler then falls back to
`str(item)`, modelled by the stored `reprStr`). -/
inductive BaiduItem where
  | str (s : String)
  | dict (d : StrDict)
  | obj (title url abstract : Option String)
  | weird (reprStr : String)
deriving DecidableEq

/-- The `for i, item in enumerate(raw_results)` loop of
`BaiduSearchEngine.perform_search`: every branch appends exactly one
`SearchItem`, with placeholder title `"Baidu Result {i+1}"` where needed. -/
def baiduNormalize : List BaiduItem → Nat → List SearchItem
  | [], _ => []
  | BaiduItem.str s :: rest, i =>
      ⟨"Baidu Result " ++ toString (i + 1), s, some ""⟩ :: baiduNormalize rest (i + 1)
  | BaiduItem.dict d :: rest, i =>
      ⟨dictGet d "title" ("Baidu Result " ++ toString (i + 1)),
        dictGet d "url" "", some (dictGet d "abstract" "")⟩ :: baiduNormalize rest (i + 1)
  | BaiduItem.obj t u a :: rest, i =>
      ⟨t.getD ("Baidu Result " ++ toString (i + 1)),
        u.getD "", some (a.getD "")⟩ :: baiduNormalize rest (i + 1)
  | BaiduItem.weird r :: rest, i =>
      ⟨"Baidu Result " ++ toString (i + 1), r, some ""⟩ :: baiduNormalize rest (i + 1)

/-- `BaiduSearchEngine.perform_search`: call the `baidusearch` library with
`num_results` and normalize; on `ImportError` or any other exception return
the empty list. -/
def baiduPerformSearch (query : String) (num_results : Int)
    (blib : Int → Except String (List BaiduItem)) : List SearchItem :=
  match blib num_results with
  | Except.error _ => []
  | Except.ok items => baiduNormalize items 0

/-! ### BingSearchEngine -/

/-- The `ABSTRACT_MAX_LENGTH` constant. -/
def ABSTRACT_MAX_LENGTH : Nat := 300

/-- The anchor situation inside an `h2` element of a Bing result entry:
no `<a>` child (`h2.a` is `None`, so the URL falls back to `""`), an `<a>`
child without an `href` attribute (`h2.a["href"]` raises `KeyError`, so the
entry is skipped), or an `<a>` child with an `href` value. -/
inductive HrefAttr where
  | noA
  | aNoHref
  | aHref (s : String)
deriving DecidableEq

/-- One `li class="b_algo"` entry of a Bing results page: an optional `h2`
element (its text plus its anchor situation) and an optional `p` element
(its text). -/
structure BingLi where
  h2 : Option (String × HrefAttr)
  p : Option String
deriving DecidableEq

/-- One Bing results page: the `ol id="b_results"` container (absent when
the markup has none) and the `href` of the `a title="Next page"` control
(absent when the control is missing or carries no usable `href`). -/
structure BingPage where
  b_results : Option (List BingLi)
  next_href : Option String
deriving DecidableEq

/-- The entry loop of `BingSearchEngine._parse_html`: walk the `li` entries
in document order, threading `rank_start`.  An entry without `h2` is skipped
(`continue`); an entry whose anchor lacks `href` raises `KeyError`, which
the inner handler turns into a skip; neither skip increments `rank_start`.
Otherwise title and url are stripped, the abstract is stripped and truncated
to `ABSTRACT_MAX_LENGTH` characters, `rank_start` is incremented, and an
empty title is replaced by the placeholder `"Bing Result {rank_start}"`. -/
def parseLis : List BingLi → Nat → List SearchItem
  | [], _ => []
  | ⟨none, _⟩ :: rest, rank_start => parseLis rest rank_start
  | ⟨some (_, HrefAttr.aNoHref), _⟩ :: rest, rank_start => parseLis rest rank_start
  | ⟨some (h2text, a), pElem⟩ :: rest, rank_start =>
      let title := pyStrip h2text
      let url := match a with
        | HrefAttr.aHref s => pyStrip s
        | _ => ""
      let abstract0 := match pElem with
        | some t => pyStrip t
        | none => ""
      let abstract :=
        if ABSTRACT_MAX_LENGTH ≠ 0 ∧ pyLen abstract0 > ABSTRACT_MAX_LENGTH
          then pyTake abstract0 ABSTRACT_MAX_LENGTH else abstract0
      let rank := rank_start + 1
      ⟨if title = "" then "Bing Result " ++ toString rank else title, url, some abstract⟩
        :: parseLis rest rank

/-- True exactly when the entry survives the entry loop of `_parse_html`
(it has an `h2`, and its anchor, when present, carries an `href`). -/
def wellFormedLi : BingLi → Bool
  | ⟨none, _⟩ => false
  | ⟨some (_, HrefAttr.aNoHref), _⟩ => false
  | ⟨some _, _⟩ => true

/-- The `while len(list_result) < num_results` loop of
`BingSearchEngine.perform_search`, over the sequence of pages the successive
fetches return (`none` is a fetch or parse that raises; a URL past the end
of the crawlable web behaves the same way).  `_parse_html` returns
`([], None)` when the fetch raises or the results container is absent, and
returns the parsed entries together with the next URL read from the page.
The loop guard is checked before every fetch; in the exhausted and failed
cases the result is the accumulator whether or not the guard holds, so the
guard is written inside the remaining case. -/
def bingLoop (n : Int) : List (Option BingPage) → List SearchItem → List SearchItem
  | [], acc => acc
  | none :: _, acc => acc
  | some page :: rest, acc =>
    if (acc.length : Int) < n then
      match page.b_results with
      | none => acc
      | some lis =>
        match page.next_href with
        | none => acc ++ parseLis lis acc.length
        | some _ => bingLoop n rest (acc ++ parseLis lis acc.length)
    else acc

/-- `BingSearchEngine.perform_search`: empty query short-circuits to `[]`;
otherwise run the pagination loop from an empty accumulator and return
`list_result[:num_results]`. -/
def bingPerformSearch (query : String) (num_results : Int)
    (web : List (Option BingPage)) : List SearchItem :=
  if query = "" then []
  else pySlice (bingLoop num_results web []) num_results

/-- Walker written from the specification and claim wording, for comparison
with `bingPerformSearch`: collect entries page by page in document order,
stop when the collected count has reached `num_results`, when a page's
results container is absent, or when a page has no next-page link.  Entry
extraction (`parseLis`) is shared with the implementation side; the claim
under comparison is about the page walk, not about entry parsing. -/
def bingWalkSpec (n : Int) : List BingPage → List SearchItem → List SearchItem
  | [], acc => acc
  | page :: rest, acc =>
    if (acc.length : Int) < n then
      match page.b_results with
      | none => acc
      | some lis =>
        match page.next_href with
        | none => acc ++ parseLis lis acc.length
        | some _ => bingWalkSpec n rest (acc ++ parseLis lis acc.length)
    else acc

/-! ### SearchAPI (app.py) -/

/-- The cleaned result dict built by `SearchAPI.perform_search`:
`{'title': ..., 'url': ..., 'description': ..., 'rank': len(results) + 1}`. -/
structure MetaRecord where
  title : String
  url : String
  description : String
  rank : Nat
deriving DecidableEq

/-- The `for result in ddgs.text(...)` loop of `SearchAPI.perform_search`:
each backend dict is mapped to a `MetaRecord` whose `rank` is
`len(results) + 1` at append time, i.e. the 1-based position. -/
def metaNormalize (rs : List StrDict) : List MetaRecord :=
  rs.enum.map fun p =>
    ⟨dictGet p.2 "title" "", dictGet p.2 "href" "", dictGet p.2 "body" "", p.1 + 1⟩

/-- The `max_allowed_results` attribute of `SearchAPI`. -/
def SearchAPI.max_allowed_results : Int := 50

/-- `SearchAPI.perform_search`: clamp `max_results` to at most
`max_allowed_results`, call the DDGS backend with the clamped value and
normalize its records; an exception raised by the backend is re-raised
(`Except.error`), not converted to an empty list. -/
def SearchAPI.perform_search (query : String) (max_results : Int)
    (ddgs : Int → Except String (List StrDict)) : Except String (List MetaRecord) :=
  match ddgs (if max_results > SearchAPI.max_allowed_results
      then SearchAPI.max_allowed_results else max_results) with
  | Except.error e => Except.error e
  | Except.ok rs => Except.ok (metaNormalize rs)

/-- The three responses the `/api/search` route of `app.py` can produce:
a 400 for a missing query, a 500 when the search raises, or the 200 payload
`{'success': True, 'query': ..., 'max_results': ..., 'results_count': ...,
'results': [...]}`. -/
inductive ApiResponse where
  | badRequest (error : String)
  | serverError (error : String)
  | ok (query : String) (max_results : Int) (results_count : Nat)
      (results : List MetaRecord)
deriving DecidableEq

/-- The `/api/search` route of `app.py`: strip the query and reject an empty
one with a 400; replace a nonpositive `max_results` by 20; run the search and
serialize, turning a raised exception into a generic 500. -/
def apiSearchRoute (q : String) (max_results : Int)
    (ddgs : Int → Except String (List StrDict)) : ApiResponse :=
  if pyStrip q = "" then ApiResponse.badRequest "Search query (q) parameter is required"
  else
    match SearchAPI.perform_search (pyStrip q)
        (if max_results ≤ 0 then 20 else max_results) ddgs with
    | Except.error _ => ApiResponse.serverError "Internal server error"
    | Except.ok results =>
      ApiResponse.ok (pyStrip q) (if max_results ≤ 0 then 20 else max_results)
        results.length results

/-- The limit that actually reaches the DDGS backend for a request to
`/api/search` with raw `max_results = m`: the route replaces a nonpositive
value by 20, then `perform_search` caps the result at 50. -/
def apiEffectiveLimit (m : Int) : Int :=
  if (if m ≤ 0 then 20 else m) > SearchAPI.max_allowed_results
    then SearchAPI.max_allowed_results
    else (if m ≤ 0 then 20 else m)

/-! ### The /search route of the scraping file -/

/-- One per-engine block of the `/search` payload:
`{'count': len(items), 'results': [search_item_to_dict(item) ...]}`. -/
structure EnginePayload where
  count : Nat
  results : List StrDict
deriving DecidableEq

/-- Builds the per-engine block from an engine's result list. -/
def mkEnginePayload (items : List SearchItem) : EnginePayload :=
  ⟨items.length, items.map searchItemToDict⟩

/-- The `/search` payload: the query, the `engines_used` list, and one
optional block per engine key (absent when the engine was not selected). -/
structure SearchPayload where
  query : String
  engines_used : List String
  google : Option EnginePayload
  bing : Option EnginePayload
  baidu : Option EnginePayload
deriving DecidableEq

/-- The two responses of the `/search` route: a 400 for a missing query, or
the 200 payload. -/
inductive RouteResponse where
  | badRequest (error : String)
  | ok (payload : SearchPayload)
deriving DecidableEq

/-- The `/search` route of the scraping file: lowercase the engine selector,
upper-clamp `num` with `min(num, 50)`, reject an empty query with a 400,
then invoke each engine whose name matches the selector (or all of them for
`"all"`), recording per-engine blocks and `engines_used` in the fixed order
google, bing, baidu. -/
def searchRoute (q engine : String) (num : Int)
    (glib : Int → Except String (List GoogleItem))
    (web : List (Option BingPage))
    (blib : Int → Except String (List BaiduItem)) : RouteResponse :=
  if q = "" then RouteResponse.badRequest "Missing query parameter \"q\""
  else
    RouteResponse.ok
      ⟨q,
        (if pyLower engine = "google" ∨ pyLower engine = "all" then ["google"] else []) ++
        (if pyLower engine = "bing" ∨ pyLower engine = "all" then ["bing"] else []) ++
        (if pyLower engine = "baidu" ∨ pyLower engine = "all" then ["baidu"] else []),
        if pyLower engine = "google" ∨ pyLower engine = "all"
          then some (mkEnginePayload (googlePerformSearch q (min num 50) glib)) else none,
        if pyLower engine = "bing" ∨ pyLower engine = "all"
          then some (mkEnginePayload (bingPerformSearch q (min num 50) web)) else none,
        if pyLower engine = "baidu" ∨ pyLower engine = "all"
          then some (mkEnginePayload (baiduPerformSearch q (min num 50) blib)) else none⟩

/-! ### Concrete upstream fixtures used for evaluation -/

/-- A Google library call that always raises. -/
def gFail : Int → Except String (List GoogleItem) := fun _ => Except.error "google search error"

/-- A Baidu library call that always raises. -/
def bFail : Int → Except String (List BaiduItem) := fun _ => Except.error "baidu search error"

/-- A Google library call that returns three plain URL strings regardless of
the requested number of results. -/
def gOk3 : Int → Except String (List GoogleItem) := fun _ =>
  Except.ok [GoogleItem.str "https://a.example", GoogleItem.str "https://b.example",
    GoogleItem.str "https://c.example"]

/-- A Baidu library call that returns one plain URL string. -/
def bOk1 : Int → Except String (List BaiduItem) := fun _ =>
  Except.ok [BaiduItem.str "https://baidu1.example"]

/-- A well-formed Bing result entry. -/
def mkLi (t u d : String) : BingLi := ⟨some (t, HrefAttr.aHref u), some d⟩

/-- A malformed Bing result entry: no `h2` element. -/
def liNoH2 : BingLi := ⟨none, some "malformed entry"⟩

/-- First synthetic Bing page: two entries and a next-page link. -/
def pageA : BingPage :=
  ⟨some [mkLi "R1" "https://r1" "d1", mkLi "R2" "https://r2" "d2"], some "/search?q=python"⟩

/-- Second synthetic Bing page: one entry and no next-page link. -/
def pageB : BingPage := ⟨some [mkLi "R3" "https://r3" "d3"], none⟩

/-- A two-page chain: page 1 links to page 2, page 2 is last. -/
def c3Pages : List BingPage := [pageA, pageB]

/-- A one-page web with three well-formed entries and no next-page link. -/
def c2Web : List (Option BingPage) :=
  [some ⟨some [mkLi "A" "https://a" "da", mkLi "B" "https://b" "db",
    mkLi "C" "https://c" "dc"], none⟩]

/-- Six Google items of which exactly the second is malformed (its `url`
attribute is missing). -/
def c5Items : List GoogleItem :=
  [GoogleItem.obj (some "T1") (some "https://u1") (some "d1"),
   GoogleItem.obj (some "T2") none (some "d2"),
   GoogleItem.obj (some "T3") (some "https://u3") (some "d3"),
   GoogleItem.obj (some "T4") (some "https://u4") (some "d4"),
   GoogleItem.obj (some "T5") (some "https://u5") (some "d5"),
   GoogleItem.obj (some "T6") (some "https://u6") (some "d6")]

/-- A Google library call returning `c5Items`. -/
def c5Lib : Int → Except String (List GoogleItem) := fun _ => Except.ok c5Items

/-- Six Bing entries of which exactly the second is malformed. -/
def c5Lis : List BingLi :=
  [mkLi "A" "https://ua" "da", liNoH2, mkLi "B" "https://ub" "db",
   mkLi "C" "https://uc" "dc", mkLi "D" "https://ud" "dd", mkLi "E" "https://ue" "de"]

/-- Two structured DDGS backend records. -/
def ddgsRecs : List StrDict :=
  [[("title", "T1"), ("href", "https://h1"), ("body", "B1")],
   [("title", "T2"), ("href", "https://h2"), ("body", "B2")]]

/-- A DDGS backend returning `ddgsRecs` for every requested limit. -/
def ddgsOk2 : Int → Except String (List StrDict) := fun _ => Except.ok ddgsRecs

/-- A DDGS backend that always raises. -/
def ddgsFail : Int → Except String (List StrDict) := fun _ => Except.error "DDG boom"

/-! ### Helper lemmas -/

/-- When `googleNormLoop` succeeds it yields exactly one record per item. -/
theorem googleNormLoop_length :
    ∀ (items : List GoogleItem) (i : Nat) (res : List SearchItem),
      googleNormLoop items i = some res → res.length = items.length := by
  intro items
  induction items with
  | nil =>
    intro i res h
    simp only [googleNormLoop, Option.some.injEq] at h
    subst h
    rfl
  | cons it rest ih =>
    intro i res h
    cases it with
    | str s =>
      cases hr : googleNormLoop rest (i + 1) with
      | none => rw [googleNormLoop, hr] at h; simp at h
      | some tl =>
        rw [googleNormLoop, hr] at h
        simp at h
        subst h
        simp [ih (i + 1) tl hr]
    | obj t u d =>
      rcases t with _ | t
      · simp [googleNormLoop] at h
      · rcases u with _ | u
        · simp [googleNormLoop] at h
        · rcases d with _ | d
          · simp [googleNormLoop] at h
          · cases hr : googleNormLoop rest (i + 1) with
            | none => rw [googleNormLoop, hr] at h; simp at h
            | some tl =>
              rw [googleNormLoop, hr] at h
              simp at h
              subst h
              simp [ih (i + 1) tl hr]

/-- A malformed item anywhere in the Google item list makes the whole
normalization loop raise. -/
theorem googleNormLoop_malformed :
    ∀ (items : List GoogleItem) (i : Nat),
      (∃ it ∈ items, googleMalformed it = true) → googleNormLoop items i = none := by
  intro items
  induction items with
  | nil =>
    intro i h
    obtain ⟨it, hmem, _⟩ := h
    cases hmem
  | cons hd rest ih =>
    intro i h
    obtain ⟨it, hmem, hmal⟩ := h
    rcases List.mem_cons.mp hmem with heq | hrest
    · subst heq
      cases it with
      | str s => simp [googleMalformed] at hmal
      | obj t u d =>
        rcases t with _ | t
        · simp [googleNormLoop]
        · rcases u with _ | u
          · simp [googleNormLoop]
          · rcases d with _ | d
            · simp [googleNormLoop]
            · simp [googleMalformed] at hmal
    · have hnone := ih (i + 1) ⟨it, hrest, hmal⟩
      cases hd with
      | str s => rw [googleNormLoop, hnone]; rfl
      | obj t u d =>
        rcases t with _ | t
        · simp [googleNormLoop]
        · rcases u with _ | u
          · simp [googleNormLoop]
          · rcases d with _ | d
            · simp [googleNormLoop]
            · rw [googleNormLoop, hnone]; rfl

/-- Baidu's normalization yields exactly one record per raw item. -/
theorem baiduNormalize_length :
    ∀ (items : List BaiduItem) (i : Nat),
      (baiduNormalize items i).length = items.length := by
  intro items
  induction items with
  | nil => intro i; rfl
  | cons it rest ih =>
    intro i
    cases it <;> simp [baiduNormalize, ih (i + 1)]


/-- With a nonpositive limit the pagination loop collects nothing. -/
theorem bingLoop_nonpos (n : Int) (hn : n ≤ 0) (web : List (Option BingPage)) :
    bingLoop n web [] = [] := by
  cases web with
  | nil => rfl
  | cons o rest =>
    cases o with
    | none => rfl
    | some page =>
      have hguard : ¬ (((([] : List SearchItem).length : Int)) < n) := by
        simp only [List.length_nil, Nat.cast_zero]
        omega
      rw [bingLoop, if_neg hguard]

/-- The result of Bing's perform_search never has more than `n.toNat`
elements, whatever the web holds. -/
theorem bingPerformSearch_length_le (q : String) (n : Int) (web : List (Option BingPage)) :
    (bingPerformSearch q n web).length ≤ n.toNat := by
  unfold bingPerformSearch
  by_cases hq : q = ""
  · simp [hq]
  · rw [if_neg hq]
    by_cases h : 0 ≤ n
    · simp only [pySlice, if_pos h]
      exact List.length_take_le _ _
    · have hz : bingLoop n web [] = [] := bingLoop_nonpos n (by omega) web
      rw [hz]
      simp [pySlice]

/-- Over a web whose fetches all succeed, the implementation's pagination
loop coincides with the walker written from the specification wording. -/
theorem bingLoop_eq_walkSpec (n : Int) :
    ∀ (pages : List BingPage) (acc : List SearchItem),
      bingLoop n (pages.map some) acc = bingWalkSpec n pages acc := by
  intro pages
  induction pages with
  | nil => intro acc; rfl
  | cons page rest ih =>
    intro acc
    rw [List.map_cons, bingLoop, bingWalkSpec]
    by_cases h : (acc.length : Int) < n
    · rw [if_pos h, if_pos h]
      cases hb : page.b_results with
      | none => rfl
      | some lis =>
        cases hn2 : page.next_href with
        | none => rfl
        | some u => exact ih _
    · rw [if_neg h, if_neg h]

/-- With a nonpositive limit the specification-side walker also collects
nothing. -/
theorem bingWalkSpec_nonpos (n : Int) (hn : n ≤ 0) (pages : List BingPage) :
    bingWalkSpec n pages [] = [] := by
  cases pages with
  | nil => rfl
  | cons page rest =>
    have hguard : ¬ (((([] : List SearchItem).length : Int)) < n) := by
      simp only [List.length_nil, Nat.cast_zero]
      omega
    rw [bingWalkSpec, if_neg hguard]

/-- A failed fetch or parse behaves exactly as if the web ended right before
the failing page: the loop keeps what was already collected. -/
theorem bingLoop_append_failure (n : Int) :
    ∀ (pages : List BingPage) (rest : List (Option BingPage)) (acc : List SearchItem),
      bingLoop n (pages.map some ++ none :: rest) acc = bingLoop n (pages.map some) acc := by
  intro pages
  induction pages with
  | nil =>
    intro rest acc
    rfl
  | cons page tl ih =>
    intro rest acc
    rw [List.map_cons, List.cons_append, bingLoop, bingLoop]
    by_cases h : (acc.length : Int) < n
    · rw [if_pos h, if_pos h]
      cases hb : page.b_results with
      | none => rfl
      | some lis =>
        cases hn2 : page.next_href with
        | none => rfl
        | some u => exact ih rest _
    · rw [if_neg h, if_neg h]

/-- Bing's entry loop is blind to malformed entries: its output on any entry
list equals its output on the well-formed entries alone, with the same rank
threading. -/
theorem parseLis_filter_eq :
    ∀ (lis : List BingLi) (rank : Nat),
      parseLis lis rank = parseLis (lis.filter wellFormedLi) rank := by
  intro lis
  induction lis with
  | nil => intro rank; rfl
  | cons li rest ih =>
    intro rank
    obtain ⟨h2, pElem⟩ := li
    cases h2 with
    | none =>
      rw [parseLis, List.filter_cons]
      simp only [wellFormedLi]
      rw [if_neg (by simp)]
      exact ih rank
    | some pair =>
      obtain ⟨t, a⟩ := pair
      cases a with
      | noA =>
        rw [List.filter_cons]
        simp only [wellFormedLi]
        rw [if_pos (by simp)]
        simp only [parseLis]
        rw [ih]
      | aNoHref =>
        rw [parseLis, List.filter_cons]
        simp only [wellFormedLi]
        rw [if_neg (by simp)]
        exact ih rank
      | aHref s =>
        rw [List.filter_cons]
        simp only [wellFormedLi]
        rw [if_pos (by simp)]
        simp only [parseLis]
        rw [ih]

/-- Positions in an enumeration, shifted by one, are consecutive naturals. -/
theorem enumFrom_succ_map {α : Type} :
    ∀ (rs : List α) (k : Nat),
      (List.enumFrom k rs).map (fun p => p.1 + 1) = List.range' (k + 1) rs.length := by
  intro rs
  induction rs with
  | nil => intro k; rfl
  | cons r rest ih =>
    intro k
    simp only [List.enumFrom, List.map_cons, List.length_cons, List.range']
    rw [ih (k + 1)]

/-- The ranks of the records built by the meta provider's loop are exactly
1, 2, ..., n in order. -/
theorem metaNormalize_rank (rs : List StrDict) :
    (metaNormalize rs).map MetaRecord.rank = List.range' 1 rs.length := by
  unfold metaNormalize List.enum
  rw [List.map_map]
  exact enumFrom_succ_map rs 0

/-- The meta provider's loop yields one record per backend record. -/
theorem metaNormalize_length (rs : List StrDict) :
    (metaNormalize rs).length = rs.length := by
  simp [metaNormalize]

/-! ### Claim theorems -/

/-- C1 counterexample: the claim says every provider returns at most the
requested limit whatever the upstream source returns, but when the Google
library yields three URLs for a request of two results,
`GoogleSearchEngine.perform_search` returns all three — it never truncates
locally. -/
theorem google_limit_exceeded_cex :
    ¬ ((googlePerformSearch "python" 2 gOk3).length ≤ 2) := by decide

/-- C1 (amended): only `BingSearchEngine.perform_search` bounds its result
count by the requested limit whatever the upstream returns; the Google,
Baidu and meta providers produce at most one record per upstream item
(Baidu and the meta provider exactly one) and pass the limit through to the
upstream without local truncation, so their counts are bounded by the limit
only when the upstream honors it. -/
theorem result_count_vs_limit_amended :
    (∀ (q : String) (n : Int) (web : List (Option BingPage)),
      (bingPerformSearch q n web).length ≤ n.toNat)
    ∧ (∀ (q : String) (n : Int) (glib : Int → Except String (List GoogleItem))
        (items : List GoogleItem), glib n = Except.ok items →
        (googlePerformSearch q n glib).length ≤ items.length)
    ∧ (∀ (q : String) (n : Int) (blib : Int → Except String (List BaiduItem))
        (items : List BaiduItem), blib n = Except.ok items →
        (baiduPerformSearch q n blib).length = items.length)
    ∧ (∀ (q : String) (m : Int) (ddgs : Int → Except String (List StrDict))
        (rs : List StrDict), (∀ k, ddgs k = Except.ok rs) →
        ∃ l, SearchAPI.perform_search q m ddgs = Except.ok l ∧ l.length = rs.length) := by
  refine ⟨bingPerformSearch_length_le, ?_, ?_, ?_⟩
  · intro q n glib items hok
    have hred : googlePerformSearch q n glib
        = match googleNormLoop items 0 with
          | none => []
          | some res => res := by
      unfold googlePerformSearch
      rw [hok]
    rw [hred]
    cases hr : googleNormLoop items 0 with
    | none => simp
    | some res => simpa using (googleNormLoop_length items 0 res hr).le
  · intro q n blib items hok
    unfold baiduPerformSearch
    rw [hok]
    exact baiduNormalize_length items 0
  · intro q m ddgs rs h
    refine ⟨metaNormalize rs, ?_, metaNormalize_length rs⟩
    unfold SearchAPI.perform_search
    simp [h]

/-- C1 witness: the amended statement evaluated on concrete upstreams. -/
theorem result_count_vs_limit_amended_witness :
    (bingPerformSearch "python" 2 c2Web).length ≤ (2 : Int).toNat
    ∧ (googlePerformSearch "python" 3 gOk3).length ≤ 3
    ∧ (baiduPerformSearch "python" 5 bOk1).length = 1
    ∧ ∃ l, SearchAPI.perform_search "python" 10 ddgsOk2 = Except.ok l ∧ l.length = 2 := by
  refine ⟨result_count_vs_limit_amended.1 "python" 2 c2Web, ?_, ?_, ?_⟩
  · simpa using result_count_vs_limit_amended.2.1 "python" 3 gOk3 _ rfl
  · simpa using result_count_vs_limit_amended.2.2.1 "python" 5 bOk1 _ rfl
  · simpa using result_count_vs_limit_amended.2.2.2 "python" 10 ddgsOk2 _ (fun _ => rfl)

/-- C4: when fetching or parsing a page raises, Bing's pagination run
returns exactly what a run over the pages before the failure returns — the
partial results already collected, truncated to the limit — and no
exception crosses the provider boundary (the embedded provider is a total
function into lists). -/
theorem bing_failure_partial_results (q : String) (n : Int) (pages : List BingPage)
    (rest : List (Option BingPage)) :
    bingPerformSearch q n (pages.map some ++ none :: rest)
      = bingPerformSearch q n (pages.map some)
    ∧ (bingPerformSearch q n (pages.map some ++ none :: rest)).length ≤ n.toNat := by
  constructor
  · unfold bingPerformSearch
    by_cases hq : q = ""
    · simp [hq]
    · rw [if_neg hq, if_neg hq, bingLoop_append_failure]
  · exact bingPerformSearch_length_le _ _ _

/-- C6: when the external library capability fails (unavailable or raising),
the Google and Baidu providers return the empty sequence, indistinguishable
from a run whose upstream legitimately returned zero results. -/
theorem library_failure_yields_empty (q : String) (n : Int)
    (glib : Int → Except String (List GoogleItem))
    (blib : Int → Except String (List BaiduItem)) (e1 e2 : String)
    (hg : glib n = Except.error e1) (hb : blib n = Except.error e2) :
    googlePerformSearch q n glib = []
    ∧ baiduPerformSearch q n blib = []
    ∧ googlePerformSearch q n glib = googlePerformSearch q n (fun _ => Except.ok [])
    ∧ baiduPerformSearch q n blib = baiduPerformSearch q n (fun _ => Except.ok []) := by
  have h1 : googlePerformSearch q n glib = [] := by
    unfold googlePerformSearch
    rw [hg]
  have h2 : baiduPerformSearch q n blib = [] := by
    unfold baiduPerformSearch
    rw [hb]
  exact ⟨h1, h2, by rw [h1]; rfl, by rw [h2]; rfl⟩

/-- C6 witness: both providers evaluated on failing libraries. -/
theorem library_failure_yields_empty_witness :
    googlePerformSearch "python" 5 gFail = []
    ∧ baiduPerformSearch "python" 5 bFail = [] := by
  have h := library_failure_yields_empty "python" 5 gFail bFail
    "google search error" "baidu search error" rfl rfl
  exact ⟨h.1, h.2.1⟩

/-- C7: when the DDGS backend fails, `SearchAPI.perform_search` re-raises
the failure as a typed error and in particular never returns an `ok` result,
so the caller can tell a failed backend from an empty one. -/
theorem meta_failure_propagates (q : String) (m : Int)
    (ddgs : Int → Except String (List StrDict)) (e : String)
    (h : ∀ k, ddgs k = Except.error e) :
    SearchAPI.perform_search q m ddgs = Except.error e
    ∧ ∀ l, SearchAPI.perform_search q m ddgs ≠ Except.ok l := by
  have h1 : SearchAPI.perform_search q m ddgs = Except.error e := by
    unfold SearchAPI.perform_search
    simp [h]
  refine ⟨h1, fun l hl => ?_⟩
  rw [h1] at hl
  exact Except.noConfusion hl

/-- C7 witness: the meta provider evaluated on a failing backend. -/
theorem meta_failure_propagates_witness :
    SearchAPI.perform_search "python" 10 ddgsFail = Except.error "DDG boom" :=
  (meta_failure_propagates "python" 10 ddgsFail "DDG boom" (fun _ => rfl)).1

/-- C3: over a finite chain of successfully fetched pages in which every
page but the last carries a next-page link, Bing's perform_search collects
entries page by page in document order, stops when the collected count has
reached `num_results`, when a page's results container is absent, or when a
page has no next-page link, and returns the accumulated sequence truncated
to `num_results` entries — that is, it coincides with the walker written
from the specification wording. -/
theorem bing_pagination_walk (q : String) (n : Int) (pages : List BingPage)
    (hq : q ≠ "")
    (hchain : pages.dropLast.all (fun p => p.next_href.isSome) = true)
    (hlast : pages.getLast?.elim true (fun p => p.next_href.isNone) = true) :
    bingPerformSearch q n (pages.map some)
      = (bingWalkSpec n pages []).take n.toNat := by
  unfold bingPerformSearch
  rw [if_neg hq, bingLoop_eq_walkSpec]
  by_cases h : 0 ≤ n
  · simp only [pySlice, if_pos h]
  · have hz : bingWalkSpec n pages [] = [] := bingWalkSpec_nonpos n (by omega) pages
    rw [hz]
    simp [pySlice]

/-- C3 witness: the walk evaluated on the concrete two-page chain. -/
theorem bing_pagination_walk_witness :
    bingPerformSearch "python" 4 (c3Pages.map some)
      = (bingWalkSpec 4 c3Pages []).take (4 : Int).toNat :=
  bing_pagination_walk "python" 4 c3Pages (by decide) (by decide) (by decide)

/-- C2 counterexample: the claim says a requested limit of at most 0 is
replaced by the default of 20 before searching, but the `/search` route only
computes `min(num, 50)`; with `num = 0` the Bing engine is invoked with
limit 0 and contributes zero results, although the same web yields three
results under limit 20. -/
theorem search_route_limit_cex :
    searchRoute "python" "bing" 0 gFail c2Web bFail
      = RouteResponse.ok ⟨"python", ["bing"], none, some ⟨0, []⟩, none⟩
    ∧ (bingPerformSearch "python" 20 c2Web).length = 3 :=
  ⟨by decide, by decide⟩

/-- C2 (amended): in the `/api/search` route the limit is clamped before
searching — a value above 50 reaches the backend as 50, a nonpositive value
as 20 (`apiEffectiveLimit`), and the route behaves as the backend's answer
at that clamped limit; in the `/search` route the limit is only
upper-clamped to `min(num, 50)` and a nonpositive value is passed through
to the engines unchanged. -/
theorem limit_clamping_amended :
    (∀ m : Int, m > 50 → apiEffectiveLimit m = 50)
    ∧ (∀ m : Int, m ≤ 0 → apiEffectiveLimit m = 20)
    ∧ (∀ (q : String) (m : Int) (ddgs : Int → Except String (List StrDict)),
        pyStrip q ≠ "" →
        apiSearchRoute q m ddgs
          = match ddgs (apiEffectiveLimit m) with
            | Except.error _ => ApiResponse.serverError "Internal server error"
            | Except.ok rs =>
              ApiResponse.ok (pyStrip q) (if m ≤ 0 then 20 else m)
                (metaNormalize rs).length (metaNormalize rs))
    ∧ (∀ (q : String) (num : Int) (glib : Int → Except String (List GoogleItem))
        (web : List (Option BingPage)) (blib : Int → Except String (List BaiduItem)),
        q ≠ "" →
        searchRoute q "bing" num glib web blib
          = RouteResponse.ok ⟨q, ["bing"], none,
              some (mkEnginePayload (bingPerformSearch q (min num 50) web)), none⟩) := by
  refine ⟨?_, ?_, ?_, ?_⟩
  · intro m hm
    simp only [apiEffectiveLimit, SearchAPI.max_allowed_results]
    split_ifs <;> omega
  · intro m hm
    simp only [apiEffectiveLimit, SearchAPI.max_allowed_results]
    split_ifs <;> omega
  · intro q m ddgs hq
    unfold apiSearchRoute SearchAPI.perform_search apiEffectiveLimit
    rw [if_neg hq]
    cases hd : ddgs (if (if m ≤ 0 then 20 else m) > SearchAPI.max_allowed_results
        then SearchAPI.max_allowed_results else (if m ≤ 0 then 20 else m)) with
    | error e => rfl
    | ok rs => rfl
  · intro q num glib web blib hq
    have c1 : ¬ (pyLower "bing" = "google" ∨ pyLower "bing" = "all") := by decide
    have c2 : pyLower "bing" = "bing" ∨ pyLower "bing" = "all" := by decide
    have c3 : ¬ (pyLower "bing" = "baidu" ∨ pyLower "bing" = "all") := by decide
    unfold searchRoute
    rw [if_neg hq]
    simp only [if_neg c1, if_pos c2, if_neg c3]
    rfl

/-- C2 witness: the amended statement evaluated at concrete limits. -/
theorem limit_clamping_amended_witness :
    apiEffectiveLimit 60 = 50
    ∧ apiEffectiveLimit (-3) = 20
    ∧ apiSearchRoute "python" 60 ddgsOk2
        = ApiResponse.ok "python" 60 2 (metaNormalize ddgsRecs)
    ∧ searchRoute "python" "bing" 0 gFail c2Web bFail
        = RouteResponse.ok ⟨"python", ["bing"], none,
            some (mkEnginePayload (bingPerformSearch "python" (min 0 50) c2Web)), none⟩ := by
  refine ⟨limit_clamping_amended.1 60 (by decide),
    limit_clamping_amended.2.1 (-3) (by decide), ?_,
    limit_clamping_amended.2.2.2 "python" 0 gFail c2Web bFail (by decide)⟩
  have h := limit_clamping_amended.2.2.1 "python" 60 ddgsOk2 (by decide)
  rw [h]
  rfl

/-- C5 counterexample: the claim says a single malformed entry among
well-formed ones is skipped with the remaining records returned, but when
one of six Google items lacks its url attribute,
`GoogleSearchEngine.perform_search` returns the empty list — the five
well-formed records are discarded too, because the exception is caught only
by the outer handler. -/
theorem google_malformed_aborts_cex :
    googlePerformSearch "python" 6 c5Lib = []
    ∧ (googlePerformSearch "python" 6 c5Lib).length ≠ 5 :=
  ⟨by decide, by decide⟩

/-- C5 (amended): Bing's entry parser skips exactly the malformed entries —
its output on any entry list equals its output on the well-formed entries
alone — while `GoogleSearchEngine.perform_search` instead returns the empty
sequence as soon as any upstream item is malformed, discarding the
well-formed ones too. -/
theorem malformed_entry_resilience_amended :
    (∀ (lis : List BingLi) (rank : Nat),
      parseLis lis rank = parseLis (lis.filter wellFormedLi) rank)
    ∧ (∀ (q : String) (n : Int) (glib : Int → Except String (List GoogleItem))
        (items : List GoogleItem), glib n = Except.ok items →
        (∃ it ∈ items, googleMalformed it = true) →
        googlePerformSearch q n glib = []) := by
  refine ⟨parseLis_filter_eq, ?_⟩
  intro q n glib items hok hmal
  have hred : googlePerformSearch q n glib
      = match googleNormLoop items 0 with
        | none => []
        | some res => res := by
    unfold googlePerformSearch
    rw [hok]
  rw [hred, googleNormLoop_malformed items 0 hmal]

/-- C5 witness: the amended statement evaluated on six-entry inputs with
one malformed entry each. -/
theorem malformed_entry_resilience_amended_witness :
    parseLis c5Lis 0 = parseLis (c5Lis.filter wellFormedLi) 0
    ∧ googlePerformSearch "python" 6 c5Lib = [] :=
  ⟨malformed_entry_resilience_amended.1 c5Lis 0,
    malformed_entry_resilience_amended.2 "python" 6 c5Lib c5Items rfl
      ⟨GoogleItem.obj (some "T2") none (some "d2"), by decide, by decide⟩⟩

/-- C8 counterexample: the claim says every result record carries a rank
field, but the scraping API's serialized record has only the keys title,
link and snippet — no rank key at all. -/
theorem scrape_record_no_rank_cex :
    "rank" ∉ (searchItemToDict ⟨"Python", "https://python.example", some "desc"⟩).map
      Prod.fst := by
  decide

/-- C8 (amended): the records built by `SearchAPI.perform_search` (app.py)
carry `rank` equal to the 1-based position in the provider's result
sequence, the ranks of a returned sequence being exactly 1..n in order; the
scraping API's serialized records carry no rank field at all. -/
theorem rank_field_amended :
    (∀ (q : String) (m : Int) (ddgs : Int → Except String (List StrDict))
      (l : List MetaRecord), SearchAPI.perform_search q m ddgs = Except.ok l →
      l.map MetaRecord.rank = List.range' 1 l.length)
    ∧ (∀ item : SearchItem, "rank" ∉ (searchItemToDict item).map Prod.fst) := by
  constructor
  · intro q m ddgs l h
    unfold SearchAPI.perform_search at h
    cases hd : ddgs (if m > SearchAPI.max_allowed_results
        then SearchAPI.max_allowed_results else m) with
    | error e => rw [hd] at h; exact absurd h (by simp)
    | ok rs =>
      rw [hd] at h
      simp only [Except.ok.injEq] at h
      subst h
      rw [metaNormalize_length]
      exact metaNormalize_rank rs
  · intro item
    have hkeys : (searchItemToDict item).map Prod.fst = ["title", "link", "snippet"] := by
      simp [searchItemToDict]
    rw [hkeys]
    decide

/-- C8 witness: concrete meta records have ranks 1..n; a concrete scraped
record has no rank key. -/
theorem rank_field_amended_witness :
    (metaNormalize ddgsRecs).map MetaRecord.rank
        = List.range' 1 (metaNormalize ddgsRecs).length
    ∧ "rank" ∉ (searchItemToDict ⟨"T", "https://u", some "D"⟩).map Prod.fst :=
  ⟨rank_field_amended.1 "python" 10 ddgsOk2 (metaNormalize ddgsRecs) rfl,
   rank_field_amended.2 ⟨"T", "https://u", some "D"⟩⟩

/-- C9: an "all engines" request invokes the three providers in the fixed
order google, bing, baidu; the payload carries one block per provider, each
computed from its own upstream alone, and lists every invoked engine in
engines_used; a failing provider contributes a zero/empty block without
affecting the other blocks. -/
theorem all_engines_independent (q : String) (num : Int)
    (glib : Int → Except String (List GoogleItem))
    (web : List (Option BingPage))
    (blib : Int → Except String (List BaiduItem)) (hq : q ≠ "") :
    searchRoute q "all" num glib web blib
      = RouteResponse.ok ⟨q, ["google", "bing", "baidu"],
          some (mkEnginePayload (googlePerformSearch q (min num 50) glib)),
          some (mkEnginePayload (bingPerformSearch q (min num 50) web)),
          some (mkEnginePayload (baiduPerformSearch q (min num 50) blib))⟩
    ∧ (∀ e, (∀ k, glib k = Except.error e) →
        mkEnginePayload (googlePerformSearch q (min num 50) glib)
          = ⟨0, []⟩) := by
  constructor
  · have c1 : pyLower "all" = "google" ∨ pyLower "all" = "all" := by decide
    have c2 : pyLower "all" = "bing" ∨ pyLower "all" = "all" := by decide
    have c3 : pyLower "all" = "baidu" ∨ pyLower "all" = "all" := by decide
    unfold searchRoute
    rw [if_neg hq]
    simp only [if_pos c1, if_pos c2, if_pos c3]
    rfl
  · intro e he
    have hempty : googlePerformSearch q (min num 50) glib = [] := by
      unfold googlePerformSearch
      rw [he _]
    rw [hempty]
    rfl

/-- C9 witness: an "all engines" request in which the Google library fails
still carries the Bing and Baidu blocks, with google recorded as empty. -/
theorem all_engines_independent_witness :
    searchRoute "python" "all" 10 gFail c2Web bOk1
      = RouteResponse.ok ⟨"python", ["google", "bing", "baidu"],
          some (mkEnginePayload (googlePerformSearch "python" (min 10 50) gFail)),
          some (mkEnginePayload (bingPerformSearch "python" (min 10 50) c2Web)),
          some (mkEnginePayload (baiduPerformSearch "python" (min 10 50) bOk1))⟩
    ∧ mkEnginePayload (googlePerformSearch "python" (min 10 50) gFail) = ⟨0, []⟩ := by
  have h := all_engines_independent "python" 10 gFail c2Web bOk1 (by decide)
  exact ⟨h.1, h.2 "google search error" (fun _ => rfl)⟩

/-- C10: a request to `/search` with a non-empty query and an engine
selector whose lowercased value is none of google, bing, baidu, all gets a
200 payload holding only the query and an empty engines_used list — no
per-engine blocks and no error indication. -/
theorem unknown_engine_empty_payload (q engine : String) (num : Int)
    (glib : Int → Except String (List GoogleItem))
    (web : List (Option BingPage))
    (blib : Int → Except String (List BaiduItem)) (hq : q ≠ "")
    (h1 : pyLower engine ≠ "google") (h2 : pyLower engine ≠ "bing")
    (h3 : pyLower engine ≠ "baidu") (h4 : pyLower engine ≠ "all") :
    searchRoute q engine num glib web blib
      = RouteResponse.ok ⟨q, [], none, none, none⟩ := by
  have c1 : ¬ (pyLower engine = "google" ∨ pyLower engine = "all") := by
    rintro (h | h)
    exacts [h1 h, h4 h]
  have c2 : ¬ (pyLower engine = "bing" ∨ pyLower engine = "all") := by
    rintro (h | h)
    exacts [h2 h, h4 h]
  have c3 : ¬ (pyLower engine = "baidu" ∨ pyLower engine = "all") := by
    rintro (h | h)
    exacts [h3 h, h4 h]
  unfold searchRoute
  rw [if_neg hq]
  simp only [if_neg c1, if_neg c2, if_neg c3]
  rfl

/-- C10 witness: the route evaluated with the unrecognized selector
duckduckgo. -/
theorem unknown_engine_empty_payload_witness :
    searchRoute "python" "duckduckgo" 10 gFail c2Web bOk1
      = RouteResponse.ok ⟨"python", [], none, none, none⟩ :=
  unknown_engine_empty_payload "python" "duckduckgo" 10 gFail c2Web bOk1
    (by decide) (by decide) (by decide) (by decide) (by decide)
